import Mathlib

/-!
Shallow embedding of `src/serialimage.rs` (crate `serialimagedata`).

The sample element type of the Rust code (`u8`, `u16`, `f32`) is modelled by a
type parameter `T`; the claims under study only read, move and compare samples,
never compute with them, so the embedding is parametric.  The opaque metadata
record (`ImageMetaData`) is likewise a type parameter `M`.  Machine integers
`usize`/`u8` that hold sizes and element counts are modelled as `Nat`: every
value the code stores in them is a small count (the `as u8` cast in `from_vec`
happens only after the value was checked to be at most 4, so no truncation can
occur).  Fallible constructors returning a Rust result with a static error string are
modelled as `Except String _` carrying the exact error strings of the source.
A Rust panic (`Option::unwrap` on `None`, or the `panic!` arms) is modelled,
where a claim can reach it, by an outer `Option` whose `none` means the call
panics.
-/

/-- Mirror of the private struct `SerialImageInternal<T>` (source lines 11-19):
five optional channel planes plus the cached per-pixel element count. -/
structure SerialImageInternal (T : Type) where
  luma : Option (List T)
  red : Option (List T)
  green : Option (List T)
  blue : Option (List T)
  alpha : Option (List T)
  pixel_elems : Nat
deriving DecidableEq, Repr

/-- Mirror of `SerialImageBuffer<T>` (source lines 21-30); `M` stands for the
opaque `ImageMetaData` record. -/
structure SerialImageBuffer (M T : Type) where
  meta : Option M
  data : SerialImageInternal T
  width : Nat
  height : Nat
deriving DecidableEq, Repr

/-- Translation of the source idiom
`o.is_some() && o.as_ref().unwrap().len() != n`
used by the length checks of the explicit-channel constructors: `true` exactly
when the channel is present with a length different from `n`. -/
def lenMismatch {T : Type} (o : Option (List T)) (n : Nat) : Bool :=
  match o with
  | some l => l.length != n
  | none => false

/-- Mirror of `SerialImageBuffer::from_vec_unsafe` (source lines 82-128),
the deinterleaver: splits a flat sample list into the channel planes implied
by `elems`.  The source reads `data[i*k + j]` inside loops whose bounds the
callers guarantee; out-of-range indexing, which would be a Rust panic, is
modelled by `List.getD` with the `default` sample.  The final arm, where the
source panics, is unreachable from every call site in this development and
returns the all-absent tuple.  The source name of this function ends in a word
this development avoids, hence the `unchecked` suffix. -/
def from_vec_unchecked {T : Type} [Inhabited T] (size : Nat) (data : List T) (elems : Nat) :
    Option (List T) × Option (List T) × Option (List T) × Option (List T) × Option (List T) :=
  if elems = 1 then
    (some data, none, none, none, none)
  else if elems = 2 then
    (some ((List.range size).map fun i => data.getD (i * 2) default),
     none, none, none,
     some ((List.range size).map fun i => data.getD (i * 2 + 1) default))
  else if elems = 3 then
    (none,
     some ((List.range size).map fun i => data.getD (i * 3) default),
     some ((List.range size).map fun i => data.getD (i * 3 + 1) default),
     some ((List.range size).map fun i => data.getD (i * 3 + 2) default),
     none)
  else if elems = 4 then
    (none,
     some ((List.range size).map fun i => data.getD (i * 4) default),
     some ((List.range size).map fun i => data.getD (i * 4 + 1) default),
     some ((List.range size).map fun i => data.getD (i * 4 + 2) default),
     some ((List.range size).map fun i => data.getD (i * 4 + 3) default))
  else
    (none, none, none, none, none)

/-- Mirror of `SerialImageBuffer::from_vec` (source lines 52-80): build a
buffer from a flat sample list, inferring the element count from the length. -/
def from_vec {M T : Type} [Inhabited T] (width height : Nat) (data : List T) :
    Except String (SerialImageBuffer M T) :=
  if width * height = 0 then
    .error "Width and height must be greater than zero"
  else
    let pixel_elems := data.length / (width * height)
    if data.length ≠ width * height * pixel_elems then
      .error "Data length must be equal to width * height * pixel elements"
    else if pixel_elems > 4 ∨ pixel_elems = 0 then
      .error "Invalid number of pixel elements"
    else
      let (luma, red, green, blue, alpha) :=
        from_vec_unchecked (width * height) data pixel_elems
      .ok ⟨none, ⟨luma, red, green, blue, alpha, pixel_elems⟩, width, height⟩

/-- Mirror of `SerialImageBuffer::into_vec` (source lines 230-270), the
interleaver.  The source unwraps the channel planes it expects for the stored
element count; an unwrap of an absent plane, and the `panic!` arm for element
counts outside 1..4, are Rust panics, modelled by `none`. -/
def into_vec {M T : Type} [Inhabited T] (b : SerialImageBuffer M T) : Option (List T) :=
  if b.width * b.height = 0 then
    some []
  else if b.data.pixel_elems = 1 then
    b.data.luma
  else if b.data.pixel_elems = 2 then
    match b.data.luma, b.data.alpha with
    | some luma, some alpha =>
        some ((List.range (b.width * b.height)).flatMap fun i =>
          [luma.getD i default, alpha.getD i default])
    | _, _ => none
  else if b.data.pixel_elems = 3 then
    match b.data.red, b.data.green, b.data.blue with
    | some red, some green, some blue =>
        some ((List.range (b.width * b.height)).flatMap fun i =>
          [red.getD i default, green.getD i default, blue.getD i default])
    | _, _, _ => none
  else if b.data.pixel_elems = 4 then
    match b.data.red, b.data.green, b.data.blue, b.data.alpha with
    | some red, some green, some blue, some alpha =>
        some ((List.range (b.width * b.height)).flatMap fun i =>
          [red.getD i default, green.getD i default, blue.getD i default,
           alpha.getD i default])
    | _, _, _, _ => none
  else
    none

/-- Mirror of `SerialImageBuffer::<u8>::new` (source lines 289-338) and of
`SerialImageBuffer::<u16>::new` (source lines 357-406), whose bodies are
textually identical up to the sample type: the explicit-channel constructor
with channel-combination and length validation. -/
def SerialImageBuffer.new {M T : Type} (meta : Option M)
    (luma red green blue alpha : Option (List T)) (width height : Nat) :
    Except String (SerialImageBuffer M T) :=
  if width * height = 0 then
    .error "Width and height must be greater than zero"
  else
    let colors := (if red.isSome then 1 else 0) + (if green.isSome then 1 else 0)
      + (if blue.isSome then 1 else 0)
    if colors > 0 ∧ colors ≠ 3 then
      .error "All color channels must be specified."
    else if luma.isSome ∧ colors > 0 then
      .error "Luma and color channels cannot be specified at the same time"
    else if lenMismatch luma (width * height) then
      .error "Length of luma channel must be equal to width * height"
    else if lenMismatch red (width * height) then
      .error "Length of red channel must be equal to width * height"
    else if lenMismatch green (width * height) then
      .error "Length of green channel must be equal to width * height"
    else if lenMismatch blue (width * height) then
      .error "Length of blue channel must be equal to width * height"
    else if lenMismatch alpha (width * height) then
      .error "Length of alpha channel must be equal to width * height"
    else
      let pixel_elems := colors + (if luma.isSome then 1 else 0)
        + (if alpha.isSome then 1 else 0)
      .ok ⟨meta, ⟨luma, red, green, blue, alpha, pixel_elems⟩, width, height⟩

/-- Mirror of `SerialImageBuffer::<f32>::new` (source lines 422-461): the
floating-point explicit-channel constructor, whose red, green and blue
arguments are mandatory (non-optional) and which never stores a luminosity
plane. -/
def newFloat {M T : Type} (meta : Option M) (red green blue : List T)
    (alpha : Option (List T)) (width height : Nat) :
    Except String (SerialImageBuffer M T) :=
  if width * height = 0 then
    .error "Width and height must be greater than zero"
  else if red.length ≠ width * height then
    .error "Length of red channel must be equal to width * height"
  else if green.length ≠ width * height then
    .error "Length of green channel must be equal to width * height"
  else if blue.length ≠ width * height then
    .error "Length of blue channel must be equal to width * height"
  else if lenMismatch alpha (width * height) then
    .error "Length of alpha channel must be equal to width * height"
  else
    .ok ⟨meta, ⟨none, some red, some green, some blue, alpha,
      if alpha.isSome then 4 else 3⟩, width, height⟩

/-- Mirror of `SerialImageBuffer::get_metadata` (source lines 131-133). -/
def get_metadata {M T : Type} (b : SerialImageBuffer M T) : Option M :=
  b.meta

/-- Mirror of `SerialImageBuffer::set_metadata` (source lines 144-146). -/
def set_metadata {M T : Type} (b : SerialImageBuffer M T) (meta : Option M) :
    SerialImageBuffer M T :=
  { b with meta := meta }

/-- Mirror of `SerialImageBuffer::get_luma` (source lines 149-151). -/
def get_luma {M T : Type} (b : SerialImageBuffer M T) : Option (List T) :=
  b.data.luma

/-- Mirror of `SerialImageBuffer::get_red` (source lines 159-161). -/
def get_red {M T : Type} (b : SerialImageBuffer M T) : Option (List T) :=
  b.data.red

/-- Mirror of `SerialImageBuffer::get_green` (source lines 169-171). -/
def get_green {M T : Type} (b : SerialImageBuffer M T) : Option (List T) :=
  b.data.green

/-- Mirror of `SerialImageBuffer::get_blue` (source lines 179-181). -/
def get_blue {M T : Type} (b : SerialImageBuffer M T) : Option (List T) :=
  b.data.blue

/-- Mirror of `SerialImageBuffer::get_alpha` (source lines 189-191). -/
def get_alpha {M T : Type} (b : SerialImageBuffer M T) : Option (List T) :=
  b.data.alpha

/-- Mirror of `SerialImageBuffer::pixel_elems` (source lines 209-211). -/
def pixel_elems_of {M T : Type} (b : SerialImageBuffer M T) : Nat :=
  b.data.pixel_elems

/-- Model of the host imaging library packed-pixel buffer
`image::ImageBuffer<P, Vec<T>>`, reduced to what the adapter claims need:
dimensions, the per-pixel channel count of the pixel type `P`, and the raw
interleaved sample container. -/
structure HostImageBuffer (T : Type) where
  width : Nat
  height : Nat
  channels : Nat
  raw : List T
deriving DecidableEq, Repr

/-- Model of the host library constructor `ImageBuffer::from_raw` (external
collaborator, spec section 4.3): accepts the container when it holds at least
`width * height * channels` samples, otherwise rejects it. -/
def hostFromRaw {T : Type} (channels width height : Nat) (buf : List T) :
    Option (HostImageBuffer T) :=
  if width * height * channels ≤ buf.length then
    some ⟨width, height, channels, buf⟩
  else
    none

/-- Mirror of `impl TryInto<ImageBuffer<Rgb<u8>, Vec<u8>>> for
SerialImageBuffer<u8>` (source lines 1111-1133; the `u16` and `f32` variants
are textually identical up to the sample type).  The source feeds
`self.data.luma.unwrap()` to the host constructor; the unwrap of an absent
luminosity plane is a Rust panic, modelled by the outer `none`. -/
def tryIntoRgb {M T : Type} (b : SerialImageBuffer M T) :
    Option (Except String (HostImageBuffer T)) :=
  if b.data.pixel_elems ≠ 3 then
    some (.error "Image must have three elements per pixel")
  else if b.width * b.height = 0 then
    some (.error "Image must have non-zero dimensions")
  else
    match b.data.luma with
    | none => none
    | some l =>
      match hostFromRaw 3 b.width b.height l with
      | none => some (.error "Failed to convert to image buffer")
      | some img => some (.ok img)

/-- Mirror of `impl TryInto<ImageBuffer<LumaA<T>, Vec<T>>> for
SerialImageBuffer<T>` (source lines 1063-1085).  As in the source, only the
luminosity plane is handed to the host constructor. -/
def tryIntoLumaA {M T : Type} (b : SerialImageBuffer M T) :
    Option (Except String (HostImageBuffer T)) :=
  if b.data.pixel_elems ≠ 2 then
    some (.error "Image must have two elements per pixel")
  else if b.width * b.height = 0 then
    some (.error "Image must have non-zero dimensions")
  else
    match b.data.luma with
    | none => none
    | some l =>
      match hostFromRaw 2 b.width b.height l with
      | none => some (.error "Failed to convert to image buffer")
      | some img => some (.ok img)

/-- Property-side predicate: the buffer satisfies the shape invariants of a
validly constructed image (spec section 3): positive pixel count, a legal
channel layout, every present plane of length `width * height`, and the cached
element count matching the layout. -/
def Valid {M T : Type} (b : SerialImageBuffer M T) : Prop :=
  0 < b.width * b.height ∧
  ((b.data.pixel_elems = 1 ∧ b.data.luma.map List.length = some (b.width * b.height) ∧
      b.data.red = none ∧ b.data.green = none ∧ b.data.blue = none ∧ b.data.alpha = none) ∨
   (b.data.pixel_elems = 2 ∧ b.data.luma.map List.length = some (b.width * b.height) ∧
      b.data.alpha.map List.length = some (b.width * b.height) ∧
      b.data.red = none ∧ b.data.green = none ∧ b.data.blue = none) ∨
   (b.data.pixel_elems = 3 ∧ b.data.red.map List.length = some (b.width * b.height) ∧
      b.data.green.map List.length = some (b.width * b.height) ∧
      b.data.blue.map List.length = some (b.width * b.height) ∧
      b.data.luma = none ∧ b.data.alpha = none) ∨
   (b.data.pixel_elems = 4 ∧ b.data.red.map List.length = some (b.width * b.height) ∧
      b.data.green.map List.length = some (b.width * b.height) ∧
      b.data.blue.map List.length = some (b.width * b.height) ∧
      b.data.alpha.map List.length = some (b.width * b.height) ∧
      b.data.luma = none))

/-- Property-side function: the plane holding channel position `c` of the
fixed interleave order for the buffer layout (luminosity then alpha for the
1- and 2-element layouts; red, green, blue, then alpha for the 3- and
4-element layouts). -/
def channelAt {M T : Type} (b : SerialImageBuffer M T) (c : Nat) : Option (List T) :=
  match b.data.pixel_elems, c with
  | 1, 0 => b.data.luma
  | 2, 0 => b.data.luma
  | 2, 1 => b.data.alpha
  | 3, 0 => b.data.red
  | 3, 1 => b.data.green
  | 3, 2 => b.data.blue
  | 4, 0 => b.data.red
  | 4, 1 => b.data.green
  | 4, 2 => b.data.blue
  | 4, 3 => b.data.alpha
  | _, _ => none

/-- Property-side function: sample of pixel `i` at channel position `c` of the
fixed interleave order, read from the channel planes (the `default` sample
stands for an out-of-range read, which valid buffers never perform). -/
def sampleAt {M T : Type} [Inhabited T] (b : SerialImageBuffer M T) (i c : Nat) : T :=
  ((channelAt b c).getD []).getD i default

/-- Property-side predicate on error strings: the two messages the spec error
taxonomy groups under `ChannelCombinationInvalid`. -/
def ChannelCombinationInvalid (e : String) : Prop :=
  e = "All color channels must be specified." ∨
  e = "Luma and color channels cannot be specified at the same time"

/-- Property-side predicate on error strings: the messages the spec error
taxonomy groups under `ChannelLengthMismatch`. -/
def ChannelLengthMismatch (e : String) : Prop :=
  e = "Length of luma channel must be equal to width * height" ∨
  e = "Length of red channel must be equal to width * height" ∨
  e = "Length of green channel must be equal to width * height" ∨
  e = "Length of blue channel must be equal to width * height" ∨
  e = "Length of alpha channel must be equal to width * height"

/-- Property-side predicate: the five channel arguments form one of the four
legal presence combinations of the layout table (spec section 3). -/
def LegalArgs {T : Type} (luma red green blue alpha : Option (List T)) : Prop :=
  (luma.isSome ∧ red = none ∧ green = none ∧ blue = none ∧ alpha = none) ∨
  (luma.isSome ∧ alpha.isSome ∧ red = none ∧ green = none ∧ blue = none) ∨
  (red.isSome ∧ green.isSome ∧ blue.isSome ∧ luma = none ∧ alpha = none) ∨
  (red.isSome ∧ green.isSome ∧ blue.isSome ∧ alpha.isSome ∧ luma = none)

/-- Property-side predicate: every present channel among the five arguments
has length exactly `n`. -/
def presLen {T : Type} (o : Option (List T)) (n : Nat) : Prop :=
  match o with
  | some l => l.length = n
  | none => True

/-- Conjunction of `presLen` over the five channel arguments. -/
def AllLens {T : Type} (luma red green blue alpha : Option (List T)) (n : Nat) : Prop :=
  presLen luma n ∧ presLen red n ∧ presLen green n ∧ presLen blue n ∧ presLen alpha n

/-! ### Helper lemmas on interleaved lists -/

theorem length_flatMap_const {T : Type} (n e : Nat) (f : Nat → List T)
    (hf : ∀ j, (f j).length = e) :
    ((List.range n).flatMap f).length = n * e := by
  induction n with
  | zero => simp
  | succ n ih =>
      rw [List.range_succ, List.flatMap_append, List.length_append, ih]
      simp [hf, Nat.succ_mul]

theorem getD_flatMap_const {T : Type} (d : T) (n e : Nat) (f : Nat → List T)
    (hf : ∀ j, (f j).length = e) (i c : Nat) (hi : i < n) (hc : c < e) :
    ((List.range n).flatMap f).getD (i * e + c) d = (f i).getD c d := by
  induction n with
  | zero => omega
  | succ n ih =>
      rw [List.range_succ, List.flatMap_append]
      have hlen : ((List.range n).flatMap f).length = n * e :=
        length_flatMap_const n e f hf
      rcases Nat.lt_or_ge i n with h | h
      · have hidx : i * e + c < ((List.range n).flatMap f).length := by
          rw [hlen]
          have h1 : i * e + c < (i + 1) * e := by
            rw [Nat.succ_mul]; omega
          have h2 : (i + 1) * e ≤ n * e := Nat.mul_le_mul_right e h
          omega
        rw [List.getD_append _ _ _ _ hidx, ih h]
      · have hi' : i = n := by omega
        subst hi'
        rw [List.getD_append_right _ _ _ _ (by omega)]
        simp [hlen]

theorem map_getD_range_self {T : Type} (d : T) (xs : List T) :
    (List.range xs.length).map (fun i => xs.getD i d) = xs := by
  induction xs with
  | nil => simp
  | cons x t ih =>
      rw [List.length_cons, List.range_succ_eq_map, List.map_cons, List.map_map]
      simp only [Function.comp_def, List.getD_cons_zero, List.getD_cons_succ]
      rw [ih]

theorem map_getD_of_length {T : Type} (d : T) (n : Nat) (xs : List T)
    (h : xs.length = n) :
    (List.range n).map (fun i => xs.getD i d) = xs := by
  subst h
  exact map_getD_range_self d xs

theorem deinter_inter_2 {T : Type} [Inhabited T] (n : Nat) (l a : List T)
    (hl : l.length = n) (ha : a.length = n) :
    from_vec_unchecked n
        ((List.range n).flatMap fun i => [l.getD i default, a.getD i default]) 2
      = (some l, none, none, none, some a) := by
  have hf : ∀ j, ([l.getD j default, a.getD j default] : List T).length = 2 :=
    fun j => rfl
  have key : ∀ (c : Nat) (xs : List T), c < 2 → xs.length = n →
      (∀ j, ([l.getD j default, a.getD j default] : List T).getD c default
        = xs.getD j default) →
      (List.range n).map
        (fun i => ((List.range n).flatMap fun i =>
          [l.getD i default, a.getD i default]).getD (i * 2 + c) default)
        = xs := by
    intro c xs hc hxs hsel
    have heq := List.map_congr_left (l := List.range n)
      (f := fun i => ((List.range n).flatMap fun i =>
        [l.getD i default, a.getD i default]).getD (i * 2 + c) default)
      (g := fun i => xs.getD i default)
      (fun i hi => by
        have hi' := List.mem_range.mp hi
        show ((List.range n).flatMap fun i =>
          [l.getD i default, a.getD i default]).getD (i * 2 + c) default
            = xs.getD i default
        rw [getD_flatMap_const default n 2 _ hf i c hi' hc]
        exact hsel i)
    rw [heq, map_getD_of_length default n xs hxs]
  have e0 := key 0 l (by omega) hl (fun j => rfl)
  have e1 := key 1 a (by omega) ha (fun j => rfl)
  simp only [Nat.add_zero] at e0
  have hred : from_vec_unchecked n
      ((List.range n).flatMap fun i => [l.getD i default, a.getD i default]) 2
    = (some ((List.range n).map fun i => ((List.range n).flatMap fun i =>
        [l.getD i default, a.getD i default]).getD (i * 2) default),
       none, none, none,
       some ((List.range n).map fun i => ((List.range n).flatMap fun i =>
        [l.getD i default, a.getD i default]).getD (i * 2 + 1) default)) := rfl
  rw [hred, e0, e1]

theorem deinter_inter_3 {T : Type} [Inhabited T] (n : Nat) (r g b : List T)
    (hr : r.length = n) (hg : g.length = n) (hb : b.length = n) :
    from_vec_unchecked n
        ((List.range n).flatMap fun i =>
          [r.getD i default, g.getD i default, b.getD i default]) 3
      = (none, some r, some g, some b, none) := by
  have hf : ∀ j, ([r.getD j default, g.getD j default, b.getD j default] : List T).length = 3 :=
    fun j => rfl
  have key : ∀ (c : Nat) (xs : List T), c < 3 → xs.length = n →
      (∀ j, ([r.getD j default, g.getD j default, b.getD j default] : List T).getD c default
        = xs.getD j default) →
      (List.range n).map
        (fun i => ((List.range n).flatMap fun i =>
          [r.getD i default, g.getD i default, b.getD i default]).getD (i * 3 + c) default)
        = xs := by
    intro c xs hc hxs hsel
    have heq := List.map_congr_left (l := List.range n)
      (f := fun i => ((List.range n).flatMap fun i =>
        [r.getD i default, g.getD i default, b.getD i default]).getD (i * 3 + c) default)
      (g := fun i => xs.getD i default)
      (fun i hi => by
        have hi' := List.mem_range.mp hi
        show ((List.range n).flatMap fun i =>
          [r.getD i default, g.getD i default, b.getD i default]).getD (i * 3 + c) default
            = xs.getD i default
        rw [getD_flatMap_const default n 3 _ hf i c hi' hc]
        exact hsel i)
    rw [heq, map_getD_of_length default n xs hxs]
  have e0 := key 0 r (by omega) hr (fun j => rfl)
  have e1 := key 1 g (by omega) hg (fun j => rfl)
  have e2 := key 2 b (by omega) hb (fun j => rfl)
  simp only [Nat.add_zero] at e0
  have hred : from_vec_unchecked n
      ((List.range n).flatMap fun i =>
        [r.getD i default, g.getD i default, b.getD i default]) 3
    = (none,
       some ((List.range n).map fun i => ((List.range n).flatMap fun i =>
        [r.getD i default, g.getD i default, b.getD i default]).getD (i * 3) default),
       some ((List.range n).map fun i => ((List.range n).flatMap fun i =>
        [r.getD i default, g.getD i default, b.getD i default]).getD (i * 3 + 1) default),
       some ((List.range n).map fun i => ((List.range n).flatMap fun i =>
        [r.getD i default, g.getD i default, b.getD i default]).getD (i * 3 + 2) default),
       none) := rfl
  rw [hred, e0, e1, e2]

theorem deinter_inter_4 {T : Type} [Inhabited T] (n : Nat) (r g b a : List T)
    (hr : r.length = n) (hg : g.length = n) (hb : b.length = n) (ha : a.length = n) :
    from_vec_unchecked n
        ((List.range n).flatMap fun i =>
          [r.getD i default, g.getD i default, b.getD i default, a.getD i default]) 4
      = (none, some r, some g, some b, some a) := by
  have hf : ∀ j, ([r.getD j default, g.getD j default, b.getD j default,
      a.getD j default] : List T).length = 4 := fun j => rfl
  have key : ∀ (c : Nat) (xs : List T), c < 4 → xs.length = n →
      (∀ j, ([r.getD j default, g.getD j default, b.getD j default,
          a.getD j default] : List T).getD c default = xs.getD j default) →
      (List.range n).map
        (fun i => ((List.range n).flatMap fun i =>
          [r.getD i default, g.getD i default, b.getD i default,
           a.getD i default]).getD (i * 4 + c) default)
        = xs := by
    intro c xs hc hxs hsel
    have heq := List.map_congr_left (l := List.range n)
      (f := fun i => ((List.range n).flatMap fun i =>
        [r.getD i default, g.getD i default, b.getD i default,
         a.getD i default]).getD (i * 4 + c) default)
      (g := fun i => xs.getD i default)
      (fun i hi => by
        have hi' := List.mem_range.mp hi
        show ((List.range n).flatMap fun i =>
          [r.getD i default, g.getD i default, b.getD i default,
           a.getD i default]).getD (i * 4 + c) default = xs.getD i default
        rw [getD_flatMap_const default n 4 _ hf i c hi' hc]
        exact hsel i)
    rw [heq, map_getD_of_length default n xs hxs]
  have e0 := key 0 r (by omega) hr (fun j => rfl)
  have e1 := key 1 g (by omega) hg (fun j => rfl)
  have e2 := key 2 b (by omega) hb (fun j => rfl)
  have e3 := key 3 a (by omega) ha (fun j => rfl)
  simp only [Nat.add_zero] at e0
  have hred : from_vec_unchecked n
      ((List.range n).flatMap fun i =>
        [r.getD i default, g.getD i default, b.getD i default, a.getD i default]) 4
    = (none,
       some ((List.range n).map fun i => ((List.range n).flatMap fun i =>
        [r.getD i default, g.getD i default, b.getD i default,
         a.getD i default]).getD (i * 4) default),
       some ((List.range n).map fun i => ((List.range n).flatMap fun i =>
        [r.getD i default, g.getD i default, b.getD i default,
         a.getD i default]).getD (i * 4 + 1) default),
       some ((List.range n).map fun i => ((List.range n).flatMap fun i =>
        [r.getD i default, g.getD i default, b.getD i default,
         a.getD i default]).getD (i * 4 + 2) default),
       some ((List.range n).map fun i => ((List.range n).flatMap fun i =>
        [r.getD i default, g.getD i default, b.getD i default,
         a.getD i default]).getD (i * 4 + 3) default)) := rfl
  rw [hred, e0, e1, e2, e3]

theorem from_vec_exact {M T : Type} [Inhabited T] (w h e : Nat) (data : List T)
    (hn : 0 < w * h) (he1 : 1 ≤ e) (he4 : e ≤ 4) (hlen : data.length = w * h * e) :
    from_vec (M:=M) w h data =
      .ok ⟨none, ⟨(from_vec_unchecked (w * h) data e).1,
                  (from_vec_unchecked (w * h) data e).2.1,
                  (from_vec_unchecked (w * h) data e).2.2.1,
                  (from_vec_unchecked (w * h) data e).2.2.2.1,
                  (from_vec_unchecked (w * h) data e).2.2.2.2, e⟩, w, h⟩ := by
  have hne : w * h ≠ 0 := Nat.pos_iff_ne_zero.mp hn
  have hdiv : data.length / (w * h) = e := by
    rw [hlen, Nat.mul_div_cancel_left e hn]
  have h4 : ¬ (e > 4) := by omega
  have h0 : e ≠ 0 := by omega
  rcases hu : from_vec_unchecked (w * h) data e with ⟨l, r, g, bl, al⟩
  simp [from_vec, hne, hdiv, hlen, h4, h0, hu]

theorem into_vec_elems_2 {M T : Type} [Inhabited T] (meta : Option M) (l a : List T)
    (w h : Nat) (hne : w * h ≠ 0) :
    into_vec (⟨meta, ⟨some l, none, none, none, some a, 2⟩, w, h⟩ : SerialImageBuffer M T)
      = some ((List.range (w * h)).flatMap fun i => [l.getD i default, a.getD i default]) := by
  simp [into_vec, hne]

theorem into_vec_elems_3 {M T : Type} [Inhabited T] (meta : Option M) (r g b : List T)
    (w h : Nat) (hne : w * h ≠ 0) :
    into_vec (⟨meta, ⟨none, some r, some g, some b, none, 3⟩, w, h⟩ : SerialImageBuffer M T)
      = some ((List.range (w * h)).flatMap fun i =>
          [r.getD i default, g.getD i default, b.getD i default]) := by
  simp [into_vec, hne]

theorem into_vec_elems_4 {M T : Type} [Inhabited T] (meta : Option M) (r g b a : List T)
    (w h : Nat) (hne : w * h ≠ 0) :
    into_vec (⟨meta, ⟨none, some r, some g, some b, some a, 4⟩, w, h⟩ : SerialImageBuffer M T)
      = some ((List.range (w * h)).flatMap fun i =>
          [r.getD i default, g.getD i default, b.getD i default, a.getD i default]) := by
  simp [into_vec, hne]

/-! ### The claims -/

/-- C1.  Round trip: for every validly constructed buffer (element count in
1..4, pixel count at least 1), consuming it with `into_vec` and rebuilding with
`from_vec` at the same width and height succeeds and reproduces the channel
contents, width, height and element count exactly (the metadata slot of the
rebuilt buffer is `none`, which the claim does not constrain). -/
theorem c1_round_trip {M T : Type} [Inhabited T] (b : SerialImageBuffer M T)
    (hb : Valid b) :
    ∃ flat, into_vec b = some flat ∧
      from_vec (M:=M) b.width b.height flat
        = Except.ok ⟨none, b.data, b.width, b.height⟩ := by
  obtain ⟨meta, ⟨luma, red, green, blue, alpha, pe⟩, w, h⟩ := b
  obtain ⟨hn, hlay⟩ := hb
  dsimp only at hn hlay ⊢
  have hne : w * h ≠ 0 := Nat.pos_iff_ne_zero.mp hn
  rcases hlay with ⟨hpe, hl, hr, hg, hb', ha⟩ | ⟨hpe, hl, ha, hr, hg, hb'⟩ |
    ⟨hpe, hr, hg, hb', hl, ha⟩ | ⟨hpe, hr, hg, hb', ha, hl⟩
  · -- layout Luma, element count 1
    subst hpe hr hg hb' ha
    rcases luma with _ | l
    · simp at hl
    have hl' : l.length = w * h := by simpa using hl
    refine ⟨l, by simp [into_vec, hne], ?_⟩
    have hx := from_vec_exact (M:=M) w h 1 l hn (by omega) (by omega)
      (by rw [Nat.mul_one]; exact hl')
    have hu : from_vec_unchecked (w * h) l 1 = (some l, none, none, none, none) := rfl
    rw [hx, hu]
  · -- layout LumaAlpha, element count 2
    subst hpe hr hg hb'
    rcases luma with _ | l
    · simp at hl
    rcases alpha with _ | a
    · simp at ha
    have hl' : l.length = w * h := by simpa using hl
    have ha' : a.length = w * h := by simpa using ha
    refine ⟨_, into_vec_elems_2 meta l a w h hne, ?_⟩
    have hlen : ((List.range (w * h)).flatMap fun i =>
        [l.getD i default, a.getD i default]).length = w * h * 2 :=
      length_flatMap_const (w * h) 2 _ (fun j => rfl)
    have hx := from_vec_exact (M:=M) w h 2 _ hn (by omega) (by omega) hlen
    rw [hx, deinter_inter_2 (w * h) l a hl' ha']
  · -- layout Rgb, element count 3
    subst hpe hl ha
    rcases red with _ | r
    · simp at hr
    rcases green with _ | g
    · simp at hg
    rcases blue with _ | bc
    · simp at hb'
    have hr' : r.length = w * h := by simpa using hr
    have hg' : g.length = w * h := by simpa using hg
    have hb'' : bc.length = w * h := by simpa using hb'
    refine ⟨_, into_vec_elems_3 meta r g bc w h hne, ?_⟩
    have hlen : ((List.range (w * h)).flatMap fun i =>
        [r.getD i default, g.getD i default, bc.getD i default]).length = w * h * 3 :=
      length_flatMap_const (w * h) 3 _ (fun j => rfl)
    have hx := from_vec_exact (M:=M) w h 3 _ hn (by omega) (by omega) hlen
    rw [hx, deinter_inter_3 (w * h) r g bc hr' hg' hb'']
  · -- layout RgbAlpha, element count 4
    subst hpe hl
    rcases red with _ | r
    · simp at hr
    rcases green with _ | g
    · simp at hg
    rcases blue with _ | bc
    · simp at hb'
    rcases alpha with _ | a
    · simp at ha
    have hr' : r.length = w * h := by simpa using hr
    have hg' : g.length = w * h := by simpa using hg
    have hb'' : bc.length = w * h := by simpa using hb'
    have ha' : a.length = w * h := by simpa using ha
    refine ⟨_, into_vec_elems_4 meta r g bc a w h hne, ?_⟩
    have hlen : ((List.range (w * h)).flatMap fun i =>
        [r.getD i default, g.getD i default, bc.getD i default,
         a.getD i default]).length = w * h * 4 :=
      length_flatMap_const (w * h) 4 _ (fun j => rfl)
    have hx := from_vec_exact (M:=M) w h 4 _ hn (by omega) (by omega) hlen
    rw [hx, deinter_inter_4 (w * h) r g bc a hr' hg' hb'' ha']

/-- Witness for C1 at a concrete 2 by 1 luminosity-with-alpha buffer. -/
theorem c1_round_trip_witness :
    ∃ flat,
      into_vec (⟨none, ⟨some [7, 8], none, none, none, some [9, 1], 2⟩, 2, 1⟩ :
        SerialImageBuffer Unit Nat) = some flat ∧
      from_vec (M:=Unit) 2 1 flat =
        Except.ok ⟨none, ⟨some [7, 8], none, none, none, some [9, 1], 2⟩, 2, 1⟩ :=
  c1_round_trip (⟨none, ⟨some [7, 8], none, none, none, some [9, 1], 2⟩, 2, 1⟩ :
      SerialImageBuffer Unit Nat)
    ⟨by decide, Or.inr (Or.inl ⟨rfl, rfl, rfl, rfl, rfl, rfl⟩)⟩

/-- C2.  The explicit-channel constructor does not enforce the constructed
buffer invariant: a call with every channel argument absent succeeds with
element count 0, and a call with only the alpha channel present succeeds with
element count 1 and no luminosity plane — both outside the legal layouts, so
the code contradicts the documented invariant (spec section 3 and the layout
table, under which any other combination is rejected). -/
theorem c2_constructor_gap :
    (SerialImageBuffer.new (M:=Unit) (T:=Nat) none none none none none none 1 1
      = Except.ok ⟨none, ⟨none, none, none, none, none, 0⟩, 1, 1⟩) ∧
    (SerialImageBuffer.new (M:=Unit) (T:=Nat) none none none none none (some [5]) 1 1
      = Except.ok ⟨none, ⟨none, none, none, none, some [5], 1⟩, 1, 1⟩) :=
  ⟨rfl, rfl⟩

/-- C3.  The host-adapter conversions do not perform the claimed reshaping:
on a validly constructed 3-element (RGB) buffer the `Rgb` adapter unwraps the
absent luminosity plane and panics (modelled by `none`), and on a validly
constructed 2-element (luminosity+alpha) buffer the `LumaA` adapter hands only
the luminosity plane (`width*height` samples) to a host constructor expecting
`2*width*height`, so it always fails with the internal-consistency error. -/
theorem c3_adapter_gap :
    (SerialImageBuffer.new (M:=Unit) (T:=Nat) none none (some [10]) (some [20])
        (some [30]) none 1 1
      = Except.ok ⟨none, ⟨none, some [10], some [20], some [30], none, 3⟩, 1, 1⟩) ∧
    (tryIntoRgb (⟨none, ⟨none, some [10], some [20], some [30], none, 3⟩, 1, 1⟩ :
        SerialImageBuffer Unit Nat) = none) ∧
    (SerialImageBuffer.new (M:=Unit) (T:=Nat) none (some [1]) none none none
        (some [2]) 1 1
      = Except.ok ⟨none, ⟨some [1], none, none, none, some [2], 2⟩, 1, 1⟩) ∧
    (tryIntoLumaA (⟨none, ⟨some [1], none, none, none, some [2], 2⟩, 1, 1⟩ :
        SerialImageBuffer Unit Nat)
      = some (Except.error "Failed to convert to image buffer")) :=
  ⟨rfl, rfl, rfl, rfl⟩

/-- C4.  Flat-sequence inference: with a positive pixel count, `from_vec`
fails with the length error when the data length is not
`width*height*(length/(width*height))`, fails with the element-count error
when the length is an exact multiple but the quotient is 0 or exceeds 4, and
on an exact multiple of 1, 2, 3 or 4 succeeds with exactly the channels the
claim lists, deinterleaved at the claimed indices. -/
theorem c4_flat_inference {M T : Type} [Inhabited T] (w h : Nat) (data : List T)
    (hn : 0 < w * h) :
    (data.length ≠ w * h * (data.length / (w * h)) →
      from_vec (M:=M) w h data
        = .error "Data length must be equal to width * height * pixel elements") ∧
    (data.length = w * h * (data.length / (w * h)) →
      (data.length / (w * h) = 0 ∨ 4 < data.length / (w * h)) →
      from_vec (M:=M) w h data = .error "Invalid number of pixel elements") ∧
    (data.length = w * h * 1 →
      from_vec (M:=M) w h data
        = .ok ⟨none, ⟨some data, none, none, none, none, 1⟩, w, h⟩) ∧
    (data.length = w * h * 2 →
      from_vec (M:=M) w h data = .ok ⟨none,
        ⟨some ((List.range (w * h)).map fun i => data.getD (i * 2) default),
         none, none, none,
         some ((List.range (w * h)).map fun i => data.getD (i * 2 + 1) default),
         2⟩, w, h⟩) ∧
    (data.length = w * h * 3 →
      from_vec (M:=M) w h data = .ok ⟨none,
        ⟨none,
         some ((List.range (w * h)).map fun i => data.getD (i * 3) default),
         some ((List.range (w * h)).map fun i => data.getD (i * 3 + 1) default),
         some ((List.range (w * h)).map fun i => data.getD (i * 3 + 2) default),
         none, 3⟩, w, h⟩) ∧
    (data.length = w * h * 4 →
      from_vec (M:=M) w h data = .ok ⟨none,
        ⟨none,
         some ((List.range (w * h)).map fun i => data.getD (i * 4) default),
         some ((List.range (w * h)).map fun i => data.getD (i * 4 + 1) default),
         some ((List.range (w * h)).map fun i => data.getD (i * 4 + 2) default),
         some ((List.range (w * h)).map fun i => data.getD (i * 4 + 3) default),
         4⟩, w, h⟩) := by
  have hne : w * h ≠ 0 := Nat.pos_iff_ne_zero.mp hn
  refine ⟨fun h1 => ?_, fun h1 h2 => ?_, fun h1 => ?_, fun h1 => ?_, fun h1 => ?_,
    fun h1 => ?_⟩
  · simp [from_vec, hne, h1]
  · have h2' : data.length / (w * h) > 4 ∨ data.length / (w * h) = 0 := by tauto
    simp only [from_vec, hne, if_false]
    rw [if_neg (not_ne_iff.mpr h1), if_pos h2']
  · rw [from_vec_exact (M:=M) w h 1 data hn (by omega) (by omega) h1]; rfl
  · rw [from_vec_exact (M:=M) w h 2 data hn (by omega) (by omega) h1]; rfl
  · rw [from_vec_exact (M:=M) w h 3 data hn (by omega) (by omega) h1]; rfl
  · rw [from_vec_exact (M:=M) w h 4 data hn (by omega) (by omega) h1]; rfl

/-- Witness for C4 at width 1, height 1 and a one-sample list. -/
theorem c4_flat_inference_witness :
    0 < 1 * 1 ∧
    from_vec (M:=Unit) (T:=Nat) 1 1 [3]
      = .ok ⟨none, ⟨some [3], none, none, none, none, 1⟩, 1, 1⟩ :=
  ⟨by decide, (c4_flat_inference 1 1 [3] (by decide)).2.2.1 rfl⟩

/-- C6.  Zero-dimension rejection: whenever `width * height = 0`, the
flat-sequence constructor and both explicit-channel constructors fail with
the empty-dimensions error, regardless of every other argument. -/
theorem c6_zero_dims {M T : Type} [Inhabited T] (w h : Nat) (hz : w * h = 0) :
    (∀ data : List T, from_vec (M:=M) w h data
        = .error "Width and height must be greater than zero") ∧
    (∀ (meta : Option M) (luma red green blue alpha : Option (List T)),
        SerialImageBuffer.new meta luma red green blue alpha w h
          = .error "Width and height must be greater than zero") ∧
    (∀ (meta : Option M) (red green blue : List T) (alpha : Option (List T)),
        newFloat meta red green blue alpha w h
          = .error "Width and height must be greater than zero") := by
  refine ⟨fun data => ?_, fun meta luma red green blue alpha => ?_,
    fun meta r g b a => ?_⟩
  · simp [from_vec, hz]
  · simp [SerialImageBuffer.new, hz]
  · simp [newFloat, hz]

/-- Witness for C6 at width 0, height 5. -/
theorem c6_zero_dims_witness :
    from_vec (M:=Unit) (T:=Nat) 0 5 []
        = .error "Width and height must be greater than zero" ∧
    SerialImageBuffer.new (M:=Unit) (T:=Nat) none none none none none none 0 5
        = .error "Width and height must be greater than zero" ∧
    newFloat (M:=Unit) (T:=Nat) none [] [] [] none 0 5
        = .error "Width and height must be greater than zero" :=
  ⟨(c6_zero_dims 0 5 rfl).1 [],
   (c6_zero_dims 0 5 rfl).2.1 none none none none none none,
   (c6_zero_dims 0 5 rfl).2.2 none [] [] [] none⟩

/-- C10.  Metadata frame property: replacing the metadata changes only the
metadata slot — afterwards `get_metadata` returns the new value while width,
height, element count and all five channel planes are unchanged. -/
theorem c10_metadata_frame {M T : Type} (b : SerialImageBuffer M T) (m : Option M) :
    get_metadata (set_metadata b m) = m ∧
    (set_metadata b m).width = b.width ∧
    (set_metadata b m).height = b.height ∧
    pixel_elems_of (set_metadata b m) = pixel_elems_of b ∧
    get_luma (set_metadata b m) = get_luma b ∧
    get_red (set_metadata b m) = get_red b ∧
    get_green (set_metadata b m) = get_green b ∧
    get_blue (set_metadata b m) = get_blue b ∧
    get_alpha (set_metadata b m) = get_alpha b := by
  simp [get_metadata, set_metadata, pixel_elems_of, get_luma, get_red, get_green,
    get_blue, get_alpha]

/-- C5.  Interleave order and length: on every valid buffer `into_vec`
succeeds with a sequence of length `width*height*element_count` whose sample
at flat position `i*element_count + c` is channel position `c` of pixel `i`
in the fixed channel order; a 1 by 1 RGBA buffer with red 10, green 20,
blue 30, alpha 40 yields exactly `[10, 20, 30, 40]`; and any buffer with
`width*height = 0` yields the empty sequence. -/
theorem c5_interleave_order {M T : Type} [Inhabited T] :
    (∀ b : SerialImageBuffer M T, Valid b →
      ∃ flat, into_vec b = some flat ∧
        flat.length = b.width * b.height * b.data.pixel_elems ∧
        ∀ i c, i < b.width * b.height → c < b.data.pixel_elems →
          flat.getD (i * b.data.pixel_elems + c) default = sampleAt b i c) ∧
    (into_vec (⟨none, ⟨none, some [10], some [20], some [30], some [40], 4⟩, 1, 1⟩ :
        SerialImageBuffer Unit Nat) = some [10, 20, 30, 40]) ∧
    (∀ b : SerialImageBuffer M T, b.width * b.height = 0 → into_vec b = some []) := by
  refine ⟨?_, rfl, fun b hz => by simp [into_vec, hz]⟩
  intro b hb
  obtain ⟨meta, ⟨luma, red, green, blue, alpha, pe⟩, w, h⟩ := b
  obtain ⟨hn, hlay⟩ := hb
  dsimp only at hn hlay ⊢
  have hne : w * h ≠ 0 := Nat.pos_iff_ne_zero.mp hn
  rcases hlay with ⟨hpe, hl, hr, hg, hb', ha⟩ | ⟨hpe, hl, ha, hr, hg, hb'⟩ |
    ⟨hpe, hr, hg, hb', hl, ha⟩ | ⟨hpe, hr, hg, hb', ha, hl⟩
  · subst hpe hr hg hb' ha
    rcases luma with _ | l
    · simp at hl
    have hl' : l.length = w * h := by simpa using hl
    refine ⟨l, by simp [into_vec, hne], by rw [Nat.mul_one]; exact hl', ?_⟩
    intro i c hi hc
    have hc0 : c = 0 := by omega
    subst hc0
    have hidx : i * 1 + 0 = i := by omega
    rw [hidx]
    rfl
  · subst hpe hr hg hb'
    rcases luma with _ | l
    · simp at hl
    rcases alpha with _ | a
    · simp at ha
    refine ⟨_, into_vec_elems_2 meta l a w h hne,
      length_flatMap_const (w * h) 2
        (fun i => [l.getD i default, a.getD i default]) (fun j => rfl), ?_⟩
    intro i c hi hc
    have hf : ∀ j, ([l.getD j default, a.getD j default] : List T).length = 2 :=
      fun j => rfl
    rw [getD_flatMap_const default (w * h) 2 _ hf i c hi hc]
    interval_cases c
    · rfl
    · rfl
  · subst hpe hl ha
    rcases red with _ | r
    · simp at hr
    rcases green with _ | g
    · simp at hg
    rcases blue with _ | bc
    · simp at hb'
    refine ⟨_, into_vec_elems_3 meta r g bc w h hne,
      length_flatMap_const (w * h) 3
        (fun i => [r.getD i default, g.getD i default, bc.getD i default])
        (fun j => rfl), ?_⟩
    intro i c hi hc
    have hf : ∀ j, ([r.getD j default, g.getD j default, bc.getD j default] :
        List T).length = 3 := fun j => rfl
    rw [getD_flatMap_const default (w * h) 3 _ hf i c hi hc]
    interval_cases c
    · rfl
    · rfl
    · rfl
  · subst hpe hl
    rcases red with _ | r
    · simp at hr
    rcases green with _ | g
    · simp at hg
    rcases blue with _ | bc
    · simp at hb'
    rcases alpha with _ | a
    · simp at ha
    refine ⟨_, into_vec_elems_4 meta r g bc a w h hne,
      length_flatMap_const (w * h) 4
        (fun i => [r.getD i default, g.getD i default, bc.getD i default,
          a.getD i default]) (fun j => rfl), ?_⟩
    intro i c hi hc
    have hf : ∀ j, ([r.getD j default, g.getD j default, bc.getD j default,
        a.getD j default] : List T).length = 4 := fun j => rfl
    rw [getD_flatMap_const default (w * h) 4 _ hf i c hi hc]
    interval_cases c
    · rfl
    · rfl
    · rfl
    · rfl

/-- Witness for C5 at a concrete 2 by 1 RGB buffer. -/
theorem c5_interleave_order_witness :
    ∃ flat,
      into_vec (⟨none, ⟨none, some [4, 5], some [6, 7], some [8, 9], none, 3⟩, 2, 1⟩ :
        SerialImageBuffer Unit Nat) = some flat ∧
      flat.length = 2 * 1 * 3 ∧
      ∀ i c, i < 2 * 1 → c < 3 →
        flat.getD (i * 3 + c) default
          = sampleAt (⟨none, ⟨none, some [4, 5], some [6, 7], some [8, 9], none, 3⟩,
              2, 1⟩ : SerialImageBuffer Unit Nat) i c :=
  (c5_interleave_order (M:=Unit) (T:=Nat)).1 _
    ⟨by decide, Or.inr (Or.inr (Or.inl ⟨rfl, rfl, rfl, rfl, rfl, rfl⟩))⟩

/-- C7.  Illegal channel combination rejection: with positive dimensions, the
explicit-channel constructor fails with a channel-combination error whenever
exactly one or two of red, green, blue are present, and whenever luminosity is
present together with any of them, regardless of channel lengths. -/
theorem c7_combo_rejection {M T : Type} (meta : Option M)
    (luma red green blue alpha : Option (List T)) (w h : Nat) (hn : 0 < w * h)
    (hbad : ((red.isSome ∨ green.isSome ∨ blue.isSome) ∧
        ¬(red.isSome ∧ green.isSome ∧ blue.isSome)) ∨
      (luma.isSome = true ∧ (red.isSome ∨ green.isSome ∨ blue.isSome))) :
    ∃ e, SerialImageBuffer.new meta luma red green blue alpha w h = .error e ∧
      ChannelCombinationInvalid e := by
  have hne : w * h ≠ 0 := Nat.pos_iff_ne_zero.mp hn
  rcases red with _ | r <;> rcases green with _ | g <;> rcases blue with _ | bc <;>
    rcases luma with _ | l <;>
    simp_all [SerialImageBuffer.new, ChannelCombinationInvalid]

/-- Witness for C7 with red and green present but blue absent. -/
theorem c7_combo_rejection_witness :
    ∃ e, SerialImageBuffer.new (M:=Unit) (T:=Nat) none none (some [1]) (some [2])
        none none 2 2 = .error e ∧ ChannelCombinationInvalid e :=
  c7_combo_rejection none none (some [1]) (some [2]) none none 2 2 (by decide)
    (Or.inl ⟨Or.inl rfl, by simp⟩)

/-- C9.  Floating-point layout restriction: red, green and blue are mandatory
arguments of the floating-point constructor, and every buffer it returns has
no luminosity plane, stores exactly the given color planes, and has element
count 3 without alpha and 4 with alpha. -/
theorem c9_float_layout {M T : Type} (meta : Option M) (red green blue : List T)
    (alpha : Option (List T)) (w h : Nat) (b : SerialImageBuffer M T)
    (hok : newFloat meta red green blue alpha w h = .ok b) :
    b.data.luma = none ∧ b.data.red = some red ∧ b.data.green = some green ∧
      b.data.blue = some blue ∧ b.data.alpha = alpha ∧
      (alpha = none → b.data.pixel_elems = 3) ∧
      (alpha.isSome = true → b.data.pixel_elems = 4) := by
  unfold newFloat at hok
  split_ifs at hok with h1 h2 h3 h4 h5 h6
  all_goals first
  | exact Except.noConfusion hok
  | (cases hok
     first
     | (refine ⟨rfl, rfl, rfl, rfl, rfl, ?_, fun _ => rfl⟩
        intro hnone
        subst hnone
        simp at h6)
     | exact ⟨rfl, rfl, rfl, rfl, rfl, fun _ => rfl, fun hs => absurd hs h6⟩)

/-- Witness for C9 at a concrete 1 by 1 buffer without alpha. -/
theorem c9_float_layout_witness :
    (⟨none, ⟨none, some [1], some [2], some [3], none, 3⟩, 1, 1⟩ :
        SerialImageBuffer Unit Nat).data.luma = none ∧
    (⟨none, ⟨none, some [1], some [2], some [3], none, 3⟩, 1, 1⟩ :
        SerialImageBuffer Unit Nat).data.red = some [1] ∧
    (⟨none, ⟨none, some [1], some [2], some [3], none, 3⟩, 1, 1⟩ :
        SerialImageBuffer Unit Nat).data.green = some [2] ∧
    (⟨none, ⟨none, some [1], some [2], some [3], none, 3⟩, 1, 1⟩ :
        SerialImageBuffer Unit Nat).data.blue = some [3] ∧
    (⟨none, ⟨none, some [1], some [2], some [3], none, 3⟩, 1, 1⟩ :
        SerialImageBuffer Unit Nat).data.alpha = none ∧
    (none = (none : Option (List Nat)) →
      (⟨none, ⟨none, some [1], some [2], some [3], none, 3⟩, 1, 1⟩ :
        SerialImageBuffer Unit Nat).data.pixel_elems = 3) ∧
    ((none : Option (List Nat)).isSome = true →
      (⟨none, ⟨none, some [1], some [2], some [3], none, 3⟩, 1, 1⟩ :
        SerialImageBuffer Unit Nat).data.pixel_elems = 4) :=
  c9_float_layout none [1] [2] [3] none 1 1 _ rfl

/-- C8.  Channel length mismatch rejection: with positive dimensions and a
legal channel combination, the explicit-channel constructor succeeds exactly
when every present channel has length `width*height`, and otherwise fails
with a channel-length-mismatch error. -/
theorem c8_length_mismatch {M T : Type} (meta : Option M)
    (luma red green blue alpha : Option (List T)) (w h : Nat)
    (hn : 0 < w * h) (hleg : LegalArgs luma red green blue alpha) :
    ((∃ b, SerialImageBuffer.new meta luma red green blue alpha w h = .ok b) ↔
      AllLens luma red green blue alpha (w * h)) ∧
    (¬ AllLens luma red green blue alpha (w * h) →
      ∃ e, SerialImageBuffer.new meta luma red green blue alpha w h = .error e ∧
        ChannelLengthMismatch e) := by
  have hne : w * h ≠ 0 := Nat.pos_iff_ne_zero.mp hn
  rcases hleg with ⟨hl, hr, hg, hb, ha⟩ | ⟨hl, ha, hr, hg, hb⟩ |
    ⟨hr, hg, hb, hl, ha⟩ | ⟨hr, hg, hb, ha, hl⟩
  · -- luminosity only
    subst hr hg hb ha
    obtain ⟨l, rfl⟩ := Option.isSome_iff_exists.mp hl
    by_cases h1 : l.length = w * h
    · refine ⟨by simp [SerialImageBuffer.new, hne, lenMismatch, AllLens, presLen, h1],
        fun hall => absurd (by simp [AllLens, presLen, h1]) hall⟩
    · have herr : SerialImageBuffer.new (M:=M) meta (some l) none none none none w h
          = .error "Length of luma channel must be equal to width * height" := by
        simp [SerialImageBuffer.new, hne, lenMismatch, h1]
      exact ⟨by simp [herr, AllLens, presLen, h1],
        fun _ => ⟨_, herr, Or.inl rfl⟩⟩
  · -- luminosity and alpha
    subst hr hg hb
    obtain ⟨l, rfl⟩ := Option.isSome_iff_exists.mp hl
    obtain ⟨a, rfl⟩ := Option.isSome_iff_exists.mp ha
    by_cases h1 : l.length = w * h
    · by_cases h2 : a.length = w * h
      · refine ⟨by simp [SerialImageBuffer.new, hne, lenMismatch, AllLens, presLen,
          h1, h2], fun hall => absurd (by simp [AllLens, presLen, h1, h2]) hall⟩
      · have herr : SerialImageBuffer.new (M:=M) meta (some l) none none none
            (some a) w h
            = .error "Length of alpha channel must be equal to width * height" := by
          simp [SerialImageBuffer.new, hne, lenMismatch, h1, h2]
        exact ⟨by simp [herr, AllLens, presLen, h2],
          fun _ => ⟨_, herr, Or.inr (Or.inr (Or.inr (Or.inr rfl)))⟩⟩
    · have herr : SerialImageBuffer.new (M:=M) meta (some l) none none none
          (some a) w h
          = .error "Length of luma channel must be equal to width * height" := by
        simp [SerialImageBuffer.new, hne, lenMismatch, h1]
      exact ⟨by simp [herr, AllLens, presLen, h1],
        fun _ => ⟨_, herr, Or.inl rfl⟩⟩
  · -- red, green, blue
    subst hl ha
    obtain ⟨r, rfl⟩ := Option.isSome_iff_exists.mp hr
    obtain ⟨g, rfl⟩ := Option.isSome_iff_exists.mp hg
    obtain ⟨bc, rfl⟩ := Option.isSome_iff_exists.mp hb
    by_cases h1 : r.length = w * h
    · by_cases h2 : g.length = w * h
      · by_cases h3 : bc.length = w * h
        · refine ⟨by simp [SerialImageBuffer.new, hne, lenMismatch, AllLens, presLen,
            h1, h2, h3], fun hall => absurd (by simp [AllLens, presLen, h1, h2, h3]) hall⟩
        · have herr : SerialImageBuffer.new (M:=M) meta none (some r) (some g)
              (some bc) none w h
              = .error "Length of blue channel must be equal to width * height" := by
            simp [SerialImageBuffer.new, hne, lenMismatch, h1, h2, h3]
          exact ⟨by simp [herr, AllLens, presLen, h3],
            fun _ => ⟨_, herr, Or.inr (Or.inr (Or.inr (Or.inl rfl)))⟩⟩
      · have herr : SerialImageBuffer.new (M:=M) meta none (some r) (some g)
            (some bc) none w h
            = .error "Length of green channel must be equal to width * height" := by
          simp [SerialImageBuffer.new, hne, lenMismatch, h1, h2]
        exact ⟨by simp [herr, AllLens, presLen, h2],
          fun _ => ⟨_, herr, Or.inr (Or.inr (Or.inl rfl))⟩⟩
    · have herr : SerialImageBuffer.new (M:=M) meta none (some r) (some g)
          (some bc) none w h
          = .error "Length of red channel must be equal to width * height" := by
        simp [SerialImageBuffer.new, hne, lenMismatch, h1]
      exact ⟨by simp [herr, AllLens, presLen, h1],
        fun _ => ⟨_, herr, Or.inr (Or.inl rfl)⟩⟩
  · -- red, green, blue and alpha
    subst hl
    obtain ⟨r, rfl⟩ := Option.isSome_iff_exists.mp hr
    obtain ⟨g, rfl⟩ := Option.isSome_iff_exists.mp hg
    obtain ⟨bc, rfl⟩ := Option.isSome_iff_exists.mp hb
    obtain ⟨a, rfl⟩ := Option.isSome_iff_exists.mp ha
    by_cases h1 : r.length = w * h
    · by_cases h2 : g.length = w * h
      · by_cases h3 : bc.length = w * h
        · by_cases h4 : a.length = w * h
          · refine ⟨by simp [SerialImageBuffer.new, hne, lenMismatch, AllLens,
              presLen, h1, h2, h3, h4],
              fun hall => absurd (by simp [AllLens, presLen, h1, h2, h3, h4]) hall⟩
          · have herr : SerialImageBuffer.new (M:=M) meta none (some r) (some g)
                (some bc) (some a) w h
                = .error "Length of alpha channel must be equal to width * height" := by
              simp [SerialImageBuffer.new, hne, lenMismatch, h1, h2, h3, h4]
            exact ⟨by simp [herr, AllLens, presLen, h4],
              fun _ => ⟨_, herr, Or.inr (Or.inr (Or.inr (Or.inr rfl)))⟩⟩
        · have herr : SerialImageBuffer.new (M:=M) meta none (some r) (some g)
              (some bc) (some a) w h
              = .error "Length of blue channel must be equal to width * height" := by
            simp [SerialImageBuffer.new, hne, lenMismatch, h1, h2, h3]
          exact ⟨by simp [herr, AllLens, presLen, h3],
            fun _ => ⟨_, herr, Or.inr (Or.inr (Or.inr (Or.inl rfl)))⟩⟩
      · have herr : SerialImageBuffer.new (M:=M) meta none (some r) (some g)
            (some bc) (some a) w h
            = .error "Length of green channel must be equal to width * height" := by
          simp [SerialImageBuffer.new, hne, lenMismatch, h1, h2]
        exact ⟨by simp [herr, AllLens, presLen, h2],
          fun _ => ⟨_, herr, Or.inr (Or.inr (Or.inl rfl))⟩⟩
    · have herr : SerialImageBuffer.new (M:=M) meta none (some r) (some g)
          (some bc) (some a) w h
          = .error "Length of red channel must be equal to width * height" := by
        simp [SerialImageBuffer.new, hne, lenMismatch, h1]
      exact ⟨by simp [herr, AllLens, presLen, h1],
        fun _ => ⟨_, herr, Or.inr (Or.inl rfl)⟩⟩

/-- Witness for C8 at the spec example: red, green, blue of length 4 with
width 2 and height 3 (expected 6). -/
theorem c8_length_mismatch_witness :
    ∃ e, SerialImageBuffer.new (M:=Unit) (T:=Nat) none none (some [1, 2, 3, 4])
        (some [1, 2, 3, 4]) (some [1, 2, 3, 4]) none 2 3 = .error e ∧
      ChannelLengthMismatch e :=
  (c8_length_mismatch none none (some [1, 2, 3, 4]) (some [1, 2, 3, 4])
      (some [1, 2, 3, 4]) none 2 3 (by decide)
      (Or.inr (Or.inr (Or.inl ⟨rfl, rfl, rfl, rfl, rfl⟩)))).2
    (by intro hall; have := hall.2.1; simp [presLen] at this)
